/-
Verification of the android-screen-grabber tool (src/android-screen-grabber.py)
against its natural-language specification.

The Python source is shallowly embedded below.  External effects (subprocess
invocations of the `adb` binary, standard input, the clock) are modelled as
explicit parameters: each subprocess call's outcome is supplied by an
environment value, the timestamp is a string parameter, and the interactive
loop consumes an explicit list of input events.  Printing is modelled by
returning the list of printed messages.

Python string primitives used by the source (strip, lower, split, replace,
the `in` substring test, the `%03d`-style format) are given structurally
recursive Lean counterparts over `List Char` so that every definition is
kernel-executable on concrete inputs.
-/
import Mathlib

set_option autoImplicit false

namespace AndroidScreenGrabber

/-! ### Python string primitives -/

/-- Python `str.strip()` with no argument: drop whitespace from both ends.
(`Char.isWhitespace` covers the ASCII whitespace the tool encounters.) -/
def pyStrip (s : String) : String :=
  String.mk (((s.data.dropWhile Char.isWhitespace).reverse.dropWhile
    Char.isWhitespace).reverse)

/-- Python `str.lower()` (ASCII case folding suffices for the inputs used). -/
def pyLower (s : String) : String :=
  String.mk (s.data.map Char.toLower)

/-- Substring test on character lists: `hasSub pat s` is true iff `pat`
occurs contiguously in `s`. -/
def hasSub (pat : List Char) : List Char → Bool
  | [] => pat.isEmpty
  | c :: cs => pat.isPrefixOf (c :: cs) || hasSub pat cs

/-- Python `pat in s` substring containment. -/
def pyIn (pat s : String) : Bool :=
  hasSub pat.data s.data

/-- Split a character list at every character satisfying `p`
(every separator produces a boundary, as Python `str.split(sep)` does
for a one-character `sep`). -/
def splitOnPred (p : Char → Bool) : List Char → List (List Char)
  | [] => [[]]
  | c :: cs =>
    if p c then [] :: splitOnPred p cs
    else
      match splitOnPred p cs with
      | [] => [[c]]
      | t :: ts => (c :: t) :: ts

/-- Python `s.split('\n')`. -/
def pySplitLines (s : String) : List String :=
  (splitOnPred (fun c => c = '\n') s.data).map String.mk

/-- Python `s.split()[0]` on a string with at least one non-whitespace
character: split on whitespace runs, discard empty groups, take the head.
(The source only applies it to lines whose `strip()` is non-empty.) -/
def firstToken (s : String) : String :=
  String.mk ((((splitOnPred Char.isWhitespace s.data).filter
    (fun t => t ≠ [])).headD []))

/-- Fuel-driven worker for `pyReplace`; `fuel` bounds the number of consumed
characters, so `fuel = s.length` always suffices. -/
def replaceAux (pat rep : List Char) : Nat → List Char → List Char
  | _, [] => []
  | 0, s => s
  | fuel + 1, c :: cs =>
    if pat.isPrefixOf (c :: cs) then
      rep ++ replaceAux pat rep fuel (List.drop (pat.length - 1) cs)
    else
      c :: replaceAux pat rep fuel cs

/-- Python `s.replace(pat, rep)` for a non-empty `pat`: replace every
non-overlapping occurrence, scanning left to right.  (The source only calls
it with the literal pattern `".png"`.) -/
def pyReplace (s pat rep : String) : String :=
  if pat = "" then s
  else String.mk (replaceAux pat.data rep.data s.data.length s.data)

/-- Python `f"{n:03d}"` for a non-negative `n`: decimal digits, left-padded
with zeros to width 3. -/
def format03d (n : Nat) : String :=
  let s := Nat.repr n
  if s.length < 3 then String.mk (List.replicate (3 - s.length) '0') ++ s
  else s

/-- Python truthiness of an optional string (`None` and `""` are falsy),
used for `if screen_name:` and `if args.name`. -/
def pyTruthy : Option String → Bool
  | none => false
  | some s => s != ""

/-! ### Subprocess and session model -/

/-- Outcome of one `subprocess.run(..., check=True)` invocation.
`missing` models `FileNotFoundError` (binary absent), `failed` models
`CalledProcessError` (non-zero exit, carrying the exit code), `ok` carries
the captured standard output. -/
inductive RunResult where
  | missing
  | failed (code : Nat)
  | ok (stdout : String)
  deriving DecidableEq

/-- Exit status of one of the three capture-pipeline commands
(`check=True` turns a non-zero exit into an exception). -/
inductive CmdResult where
  | success
  | nonzero
  deriving DecidableEq

/-- The three adb commands `capture_screenshot` may invoke, in pipeline
order. -/
inductive Step where
  | screencap
  | pull
  | rm
  deriving DecidableEq

/-- An environment in which every capture-pipeline command succeeds. -/
def allOk : Step → CmdResult := fun _ => CmdResult.success

/-- Session state of `AndroidScreenshotTool`: the output directory and the
screenshot counter (`__init__`, lines 15–18). -/
structure AndroidScreenshotTool where
  output_dir : String
  screenshot_count : Nat
  deriving DecidableEq

/-- `AndroidScreenshotTool.__init__`: store the directory and start the
counter at 0 (directory creation is a filesystem effect, not modelled). -/
def mkTool (output_dir : String) : AndroidScreenshotTool :=
  ⟨output_dir, 0⟩

/-! ### check_adb_connection (lines 20–49) -/

/-- Lines 28–29: all lines of `adb devices` output after the header whose
`strip()` is non-empty and which contain the substring `"device"`. -/
def connectedDevices (stdout : String) : List String :=
  ((pySplitLines stdout).drop 1).filter
    (fun line => pyStrip line != "" && pyIn "device" line)

/-- `check_adb_connection` (lines 20–49): returns whether a device is
connected, together with the printed messages. -/
def check_adb_connection (r : RunResult) : Bool × List String :=
  match r with
  | RunResult.missing =>
      (false, ["❌ ADB not found!",
               "Install Android Platform Tools:",
               "  brew install android-platform-tools"])
  | RunResult.failed code =>
      (false, ["❌ Error running ADB: exit status " ++ Nat.repr code])
  | RunResult.ok stdout =>
      match connectedDevices stdout with
      | [] =>
          (false, ["❌ No Android device connected!",
                   "Make sure:",
                   "  1. Your phone is connected via USB",
                   "  2. USB debugging is enabled",
                   "  3. You've authorized the computer on your phone"])
      | d :: _ =>
          (true, ["✅ Connected to device: " ++ firstToken d])

/-! ### get_device_info (lines 51–60) -/

/-- `get_device_info` (lines 51–60): two property queries; any exception
(missing binary, non-zero exit) is swallowed by the bare `except:` and
yields the `("Unknown", "Unknown")` default; on success both outputs are
stripped.  The second query only runs when the first succeeded, which the
match order reflects. -/
def get_device_info (model version : RunResult) : String × String :=
  match model with
  | RunResult.ok m =>
      match version with
      | RunResult.ok v => (pyStrip m, pyStrip v)
      | _ => ("Unknown", "Unknown")
  | _ => ("Unknown", "Unknown")

/-! ### get_display_info (lines 62–98) -/

/-- Line 89/90: `math.ceil(physical / (density / 160))`, the density-scaled
logical dimension, computed in exact rational arithmetic. -/
def dp_dim (physical density : Nat) : ℤ :=
  Int.ceil ((physical : ℚ) / ((density : ℚ) / 160))

/-- Result structure of `get_display_info` (lines 92–96). -/
structure DisplayInfo where
  physical : Nat × Nat
  logical : ℤ × ℤ
  density : Nat
  deriving DecidableEq

/-- `get_display_info` (lines 62–98).  The two label-parsing steps on the
`wm size` / `wm density` outputs are abstracted as the `Option`-valued
inputs (`none` models an absent label or parse failure, each of which makes
the source return `None`); the logical-size derivation of lines 89–90 is
embedded exactly. -/
def get_display_info (size : Option (Nat × Nat)) (density : Option Nat) :
    Option DisplayInfo :=
  match size with
  | none => none
  | some (w, h) =>
    match density with
    | none => none
    | some d => some ⟨(w, h), (dp_dim w d, dp_dim h d), d⟩

/-! ### capture_screenshot (lines 115–149) -/

/-- Line 122: keep alphanumerics, `-` and `_`; replace every other
character with `_`.  (Python's `str.isalnum` is modelled by ASCII
`Char.isAlphanum`, which agrees on all inputs exercised here.) -/
def clean_name (screen_name : String) : String :=
  String.mk (screen_name.data.map (fun c =>
    if c.isAlphanum || c = '-' || c = '_' then c else '_'))

/-- Lines 120–125: the capture filename.  `count` is the already
incremented counter value used by the auto-naming branch. -/
def captureFilename (screen_name : Option String) (count : Nat)
    (timestamp : String) : String :=
  if pyTruthy screen_name then
    clean_name (screen_name.getD "") ++ "_" ++ timestamp ++ ".png"
  else
    "screenshot_" ++ format03d count ++ "_" ++ timestamp ++ ".png"

/-- Line 128: the fixed device-side temporary path. -/
def device_path : String := "/sdcard/screenshot_temp.png"

/-- Observable outcome of one `capture_screenshot` call: the returned
boolean, the filename that was built, the adb steps actually invoked in
order, the local file created by a successful pull (if any), and the
printed messages. -/
structure CaptureResult where
  ok : Bool
  filename : String
  ran : List Step
  localFile : Option String
  printed : List String
  deriving DecidableEq

/-- `capture_screenshot` (lines 115–149): increment the counter, build the
filename, then run screencap / pull / rm in order, each aborting the
pipeline on a non-zero exit (`CalledProcessError` caught at line 147 prints
a failure and returns `False`).  Returns the outcome and the updated
session state. -/
def capture_screenshot (tool : AndroidScreenshotTool)
    (screen_name : Option String) (timestamp : String)
    (env : Step → CmdResult) : CaptureResult × AndroidScreenshotTool :=
  let count := tool.screenshot_count + 1
  let tool' : AndroidScreenshotTool := ⟨tool.output_dir, count⟩
  let filename := captureFilename screen_name count timestamp
  let filepath := tool.output_dir ++ "/" ++ filename
  match env Step.screencap with
  | CmdResult.nonzero =>
      ({ ok := false, filename := filename, ran := [Step.screencap],
         localFile := none,
         printed := ["📸 Capturing screenshot...", "❌ Failed"] }, tool')
  | CmdResult.success =>
    match env Step.pull with
    | CmdResult.nonzero =>
        ({ ok := false, filename := filename,
           ran := [Step.screencap, Step.pull], localFile := none,
           printed := ["📸 Capturing screenshot...", "❌ Failed"] }, tool')
    | CmdResult.success =>
      match env Step.rm with
      | CmdResult.nonzero =>
          ({ ok := false, filename := filename,
             ran := [Step.screencap, Step.pull, Step.rm],
             localFile := some filepath,
             printed := ["📸 Capturing screenshot...", "❌ Failed"] }, tool')
      | CmdResult.success =>
          ({ ok := true, filename := filename,
             ran := [Step.screencap, Step.pull, Step.rm],
             localFile := some filepath,
             printed := ["📸 Capturing screenshot...",
                         "✅ Saved: " ++ filepath] }, tool')

/-! ### run_interactive dispatch loop (lines 174–193) -/

/-- What one stripped input line dispatches to (lines 176–189). -/
inductive LoopAction where
  | quit
  | info
  | captureAuto
  | captureNamed (name : String)
  deriving DecidableEq

/-- Lines 176–189: strip the raw line, then compare case-insensitively
against `q` and `i`, treat the empty result as an auto-named capture, and
any other text as the screen name. -/
def dispatch (raw : String) : LoopAction :=
  let user_input := pyStrip raw
  if pyLower user_input = "q" then LoopAction.quit
  else if pyLower user_input = "i" then LoopAction.info
  else if user_input = "" then LoopAction.captureAuto
  else LoopAction.captureNamed user_input

/-- One read from standard input: a line, or a `KeyboardInterrupt` raised
during the read. -/
inductive InputEvent where
  | line (s : String)
  | interrupt
  deriving DecidableEq

/-- Observable events of the interactive loop: a capture attempt (with the
name used, the filename built and the returned boolean), an info reprint,
the quit summary (reporting the counter value), or an uncaught `EOFError`
when input is exhausted without quitting. -/
inductive LoopEvent where
  | captured (screen_name : Option String) (filename : String) (ok : Bool)
  | infoShown
  | summary (count : Nat)
  | eofError
  deriving DecidableEq

/-- The `while True` loop of `run_interactive` (lines 174–193) over an
explicit input stream: dispatch each line, stopping with the summary on
`q` or on a `KeyboardInterrupt` (line 191 catches it and prints the same
summary).  Exhausting the stream without quitting models the uncaught
`EOFError` from `input()`. -/
def run_loop (ts : String) (env : Step → CmdResult)
    (tool : AndroidScreenshotTool) :
    List InputEvent → List LoopEvent × AndroidScreenshotTool
  | [] => ([LoopEvent.eofError], tool)
  | InputEvent.interrupt :: _ =>
      ([LoopEvent.summary tool.screenshot_count], tool)
  | InputEvent.line raw :: rest =>
    match dispatch raw with
    | LoopAction.quit =>
        ([LoopEvent.summary tool.screenshot_count], tool)
    | LoopAction.info =>
        let p := run_loop ts env tool rest
        (LoopEvent.infoShown :: p.1, p.2)
    | LoopAction.captureAuto =>
        let r := capture_screenshot tool none ts env
        let p := run_loop ts env r.2 rest
        (LoopEvent.captured none r.1.filename r.1.ok :: p.1, p.2)
    | LoopAction.captureNamed n =>
        let r := capture_screenshot tool (some n) ts env
        let p := run_loop ts env r.2 rest
        (LoopEvent.captured (some n) r.1.filename r.1.ok :: p.1, p.2)

/-- Number of capture attempts recorded in a loop trace. -/
def countCaptures : List LoopEvent → Nat
  | [] => 0
  | LoopEvent.captured _ _ _ :: evs => countCaptures evs + 1
  | _ :: evs => countCaptures evs

/-! ### Single-shot mode (lines 231–238) -/

/-- Line 237: `args.name if args.name else args.single.replace('.png', '')`
— the screen name used by single-shot mode.  `name` is the optional
`--name` value, `single` the `--single` value. -/
def singleScreenName (name : Option String) (single : String) : String :=
  if pyTruthy name then name.getD ""
  else pyReplace single ".png" ""

/-! ### Helper lemmas -/

/-- `capture_screenshot` updates the session state to the same directory and
an incremented counter, in every environment. -/
theorem capture_screenshot_state (tool : AndroidScreenshotTool)
    (name : Option String) (ts : String) (env : Step → CmdResult) :
    (capture_screenshot tool name ts env).2
      = ⟨tool.output_dir, tool.screenshot_count + 1⟩ := by
  rcases h1 : env Step.screencap <;> rcases h2 : env Step.pull <;>
    rcases h3 : env Step.rm <;> simp [capture_screenshot, h1, h2, h3]

/-- The loop's final counter is the initial counter plus the number of
capture attempts recorded in its trace. -/
theorem run_loop_count (ts : String) (env : Step → CmdResult) :
    ∀ (inputs : List InputEvent) (tool : AndroidScreenshotTool),
      (run_loop ts env tool inputs).2.screenshot_count
        = tool.screenshot_count
          + countCaptures (run_loop ts env tool inputs).1
  | [], _ => rfl
  | InputEvent.interrupt :: _, _ => rfl
  | InputEvent.line raw :: rest, tool => by
    rcases h : dispatch raw with _ | _ | _ | n
    · simp [run_loop, h, countCaptures]
    · have ih := run_loop_count ts env rest tool
      simp [run_loop, h, countCaptures, ih]
    · have hst := capture_screenshot_state tool none ts env
      have ih := run_loop_count ts env rest
        (capture_screenshot tool none ts env).2
      rw [hst] at ih
      simp [run_loop, h, countCaptures, hst, ih]
      omega
    · have hst := capture_screenshot_state tool (some n) ts env
      have ih := run_loop_count ts env rest
        (capture_screenshot tool (some n) ts env).2
      rw [hst] at ih
      simp [run_loop, h, countCaptures, hst, ih]
      omega

/-- `List.getD` commutes with `List.map` when the default is the image of a
default. -/
theorem list_getD_map {α β : Type} (f : α → β) (d : α) :
    ∀ (l : List α) (i : Nat), (l.map f).getD i (f d) = f (l.getD i d)
  | [], _ => rfl
  | _ :: _, 0 => rfl
  | _ :: l, i + 1 => list_getD_map f d l i

/-! ### Claim theorems -/

/-- C1: `capture_screenshot` runs its three subprocess steps strictly in
order (screencap to the device path, pull to the local path, rm of the
temporary file); a non-zero exit of any step prints a failure message and
returns false without running any later step — when the screencap step
fails, the pull step never runs and no local file is created — and true is
returned exactly when all three steps succeed. -/
theorem c1_capture_pipeline (tool : AndroidScreenshotTool)
    (name : Option String) (ts : String) (env : Step → CmdResult) :
    (env Step.screencap = CmdResult.nonzero →
      (capture_screenshot tool name ts env).1.ran = [Step.screencap]
      ∧ (capture_screenshot tool name ts env).1.ok = false
      ∧ (capture_screenshot tool name ts env).1.localFile = none
      ∧ "❌ Failed" ∈ (capture_screenshot tool name ts env).1.printed)
    ∧ (env Step.screencap = CmdResult.success →
       env Step.pull = CmdResult.nonzero →
      (capture_screenshot tool name ts env).1.ran
          = [Step.screencap, Step.pull]
      ∧ (capture_screenshot tool name ts env).1.ok = false
      ∧ (capture_screenshot tool name ts env).1.localFile = none
      ∧ "❌ Failed" ∈ (capture_screenshot tool name ts env).1.printed)
    ∧ (env Step.screencap = CmdResult.success →
       env Step.pull = CmdResult.success →
       env Step.rm = CmdResult.nonzero →
      (capture_screenshot tool name ts env).1.ran
          = [Step.screencap, Step.pull, Step.rm]
      ∧ (capture_screenshot tool name ts env).1.ok = false
      ∧ "❌ Failed" ∈ (capture_screenshot tool name ts env).1.printed)
    ∧ ((capture_screenshot tool name ts env).1.ok = true ↔
        env Step.screencap = CmdResult.success
        ∧ env Step.pull = CmdResult.success
        ∧ env Step.rm = CmdResult.success) := by
  rcases h1 : env Step.screencap <;> rcases h2 : env Step.pull <;>
    rcases h3 : env Step.rm <;> simp [capture_screenshot, h1, h2, h3]

/-- Witness for C1 at a concrete environment in which the screencap step
fails: the pull step is never invoked and no local file is produced. -/
theorem c1_capture_pipeline_witness :
    (capture_screenshot (mkTool "screenshots") none "20240101_120000"
        (fun _ => CmdResult.nonzero)).1.ran = [Step.screencap]
    ∧ (capture_screenshot (mkTool "screenshots") none "20240101_120000"
        (fun _ => CmdResult.nonzero)).1.localFile = none := by
  have h := (c1_capture_pipeline (mkTool "screenshots") none
    "20240101_120000" (fun _ => CmdResult.nonzero)).1 rfl
  exact ⟨h.1, h.2.2.1⟩

/-- C2: the sanitizer maps each character that is not alphanumeric, `-` or
`_` to `_`, leaves allowed characters unchanged, and preserves length and
position; `"Login Page!"` sanitizes to `"Login_Page_"`. -/
theorem c2_sanitizer (s : String) :
    (clean_name s).length = s.length
    ∧ (∀ i : Nat, i < s.length →
        (clean_name s).data.getD i '_'
          = (if (s.data.getD i '_').isAlphanum
                || s.data.getD i '_' = '-' || s.data.getD i '_' = '_'
             then s.data.getD i '_' else '_'))
    ∧ clean_name "Login Page!" = "Login_Page_" := by
  refine ⟨?_, ?_, by decide⟩
  · show (clean_name s).data.length = s.data.length
    simp [clean_name]
  intro i _
  have h := list_getD_map
    (fun c => if c.isAlphanum || c = '-' || c = '_' then c else '_')
    '_' s.data i
  simpa [clean_name] using h

/-- Witness for C2 at input `"Login Page!"`, position 5 (the space), which
sanitizes to `_`. -/
theorem c2_sanitizer_witness :
    (5 < ("Login Page!" : String).length)
    ∧ (clean_name "Login Page!").data.getD 5 '_' = '_' := by
  refine ⟨by decide, ?_⟩
  have h := (c2_sanitizer "Login Page!").2.1 5 (by decide)
  rw [h]
  decide

/-- C3: on the input lines `["login", "", "i", "q"]` with every capture
step succeeding, the loop captures exactly two screenshots (named then
auto-named), reprints the info exactly once, and terminates with a summary
reporting 2; `q` and `i` match case-insensitively, and an interrupt during
the read terminates with the same summary as `q`. -/
theorem c3_interactive_loop (tool : AndroidScreenshotTool) (ts : String)
    (env : Step → CmdResult) (rest : List InputEvent) :
    run_loop "20240101_120000" allOk (mkTool "screenshots")
        [InputEvent.line "login", InputEvent.line "", InputEvent.line "i",
         InputEvent.line "q"]
      = ([LoopEvent.captured (some "login") "login_20240101_120000.png" true,
          LoopEvent.captured none "screenshot_002_20240101_120000.png" true,
          LoopEvent.infoShown,
          LoopEvent.summary 2],
         ⟨"screenshots", 2⟩)
    ∧ dispatch "Q" = LoopAction.quit
    ∧ dispatch "I" = LoopAction.info
    ∧ run_loop ts env tool (InputEvent.interrupt :: rest)
        = ([LoopEvent.summary tool.screenshot_count], tool)
    ∧ run_loop ts env tool (InputEvent.interrupt :: rest)
        = run_loop ts env tool (InputEvent.line "q" :: rest) :=
  ⟨by decide, by decide, by decide, rfl, rfl⟩

/-- C4: `get_display_info` derives each logical dimension as the ceiling of
`physical / (density / 160)`; for physical width 1080 and density 420 the
logical width is 412. -/
theorem c4_display_ceil (w h d : Nat) :
    get_display_info (some (w, h)) (some d)
      = some ⟨(w, h),
          (Int.ceil ((w : ℚ) / ((d : ℚ) / 160)),
           Int.ceil ((h : ℚ) / ((d : ℚ) / 160))), d⟩
    ∧ dp_dim 1080 420 = 412 := by
  refine ⟨rfl, ?_⟩
  unfold dp_dim
  rw [Int.ceil_eq_iff]
  constructor <;> norm_num

/-- C5: the counter starts at 0, every `capture_screenshot` call increments
it by exactly one (named or not, in every environment, so regardless of
success), and no other loop operation modifies it: the loop's final counter
is the initial counter plus the number of capture attempts in its trace. -/
theorem c5_counter (dir : String) (tool : AndroidScreenshotTool)
    (name : Option String) (ts : String) (env : Step → CmdResult)
    (inputs : List InputEvent) :
    (mkTool dir).screenshot_count = 0
    ∧ (capture_screenshot tool name ts env).2.screenshot_count
        = tool.screenshot_count + 1
    ∧ (capture_screenshot tool name ts env).2.output_dir = tool.output_dir
    ∧ (run_loop ts env tool inputs).2.screenshot_count
        = tool.screenshot_count
          + countCaptures (run_loop ts env tool inputs).1 := by
  refine ⟨rfl, ?_, ?_, run_loop_count ts env inputs tool⟩
  · rw [capture_screenshot_state]
  · rw [capture_screenshot_state]

/-- C6: `check_adb_connection` returns false exactly when the binary is
missing, the enumeration command exits non-zero, or the output after the
header line has no non-blank line containing the device marker; otherwise
it returns true and prints the identifier of the first connected device. -/
theorem c6_check_connection (r : RunResult) :
    ((check_adb_connection r).1 = false ↔
        r = RunResult.missing
        ∨ (∃ code, r = RunResult.failed code)
        ∨ (∃ stdout, r = RunResult.ok stdout
            ∧ connectedDevices stdout = []))
    ∧ (∀ stdout d ds, r = RunResult.ok stdout →
        connectedDevices stdout = d :: ds →
        (check_adb_connection r).1 = true
        ∧ ("✅ Connected to device: " ++ firstToken d)
            ∈ (check_adb_connection r).2) := by
  constructor
  · cases r with
    | missing => simp [check_adb_connection]
    | failed code => simp [check_adb_connection]
    | ok stdout =>
      cases h : connectedDevices stdout with
      | nil => simp [check_adb_connection, h]
      | cons d ds => simp [check_adb_connection, h]
  · rintro stdout d ds rfl h
    simp [check_adb_connection, h]

/-- Witness for C6 on a concrete two-line `adb devices` output with one
connected device. -/
theorem c6_check_connection_witness :
    (check_adb_connection
        (RunResult.ok "List of devices attached\nabc\tdevice")).1 = true :=
  ((c6_check_connection _).2 "List of devices attached\nabc\tdevice"
    "abc\tdevice" [] rfl (by decide)).1

/-- C7: with no screen name, the filename is
`screenshot_<counter padded to 3 digits>_<timestamp>.png`; counter value 3
with timestamp `20240101_120000` yields
`screenshot_003_20240101_120000.png` (also via a `capture_screenshot` call
whose session counter was 2 before the call). -/
theorem c7_auto_filename :
    captureFilename none 3 "20240101_120000"
      = "screenshot_003_20240101_120000.png"
    ∧ (capture_screenshot ⟨"screenshots", 2⟩ none "20240101_120000"
        allOk).1.filename = "screenshot_003_20240101_120000.png" := by
  decide

/-- C8 counterexample: with no `--name`, the `--single` value does not
itself serve as the base name — the code first strips every `".png"`
occurrence from it, so `--single login.png` uses base name `"login"`. -/
theorem c8_single_name_counterexample :
    singleScreenName none "login.png" = "login"
    ∧ singleScreenName none "login.png" ≠ "login.png" := by
  decide

/-- C8 (amended): in single-shot mode the screen name is the `--name`
value when a non-empty one is provided; otherwise it is the `--single`
value with every occurrence of `".png"` removed. -/
theorem c8_single_name_amended (name : Option String) (single : String) :
    (∀ n, name = some n → n ≠ "" → singleScreenName name single = n)
    ∧ (name = none →
        singleScreenName name single = pyReplace single ".png" "")
    ∧ singleScreenName none "login" = "login"
    ∧ singleScreenName (some "login_screen") "shot.png" = "login_screen" := by
  refine ⟨?_, ?_, by decide, by decide⟩
  · rintro n rfl hn
    simp [singleScreenName, pyTruthy, hn]
  · rintro rfl
    simp [singleScreenName, pyTruthy]

/-- Witness for C8's amended theorem at a provided non-empty name. -/
theorem c8_single_name_witness :
    singleScreenName (some "shot") "login.png" = "shot" :=
  (c8_single_name_amended (some "shot") "login.png").1 "shot" rfl (by decide)

/-- C9: `get_device_info` returns `("Unknown", "Unknown")` whenever either
property query fails (missing binary or non-zero exit; the bare `except:`
swallows every exception, and the total Lean embedding reflects that no
exception reaches the caller), and on success returns the two
whitespace-stripped outputs. -/
theorem c9_device_info (model version : RunResult) :
    (∀ m v, model = RunResult.ok m → version = RunResult.ok v →
        get_device_info model version = (pyStrip m, pyStrip v))
    ∧ ((∀ m, model ≠ RunResult.ok m) ∨ (∀ v, version ≠ RunResult.ok v) →
        get_device_info model version = ("Unknown", "Unknown")) := by
  constructor
  · rintro m v rfl rfl
    rfl
  · intro h
    cases model with
    | missing => rfl
    | failed code => rfl
    | ok m =>
      cases version with
      | missing => rfl
      | failed code => rfl
      | ok v =>
        rcases h with h | h
        · exact absurd rfl (h m)
        · exact absurd rfl (h v)

/-- Witness for C9: the binary missing on the first query yields the
default pair. -/
theorem c9_device_info_witness :
    get_device_info RunResult.missing (RunResult.ok "14")
      = ("Unknown", "Unknown") :=
  (c9_device_info RunResult.missing (RunResult.ok "14")).2
    (Or.inl (fun _ h => RunResult.noConfusion h))

/-- C10: the loop strips surrounding whitespace before dispatching: a
whitespace-only line dispatches as the empty line (auto capture, not a
named capture), `" q "` quits, `" I "` shows info, and a named capture
always uses the stripped text as the screen name. -/
theorem c10_dispatch_strip (raw : String) :
    (pyStrip raw = "" → dispatch raw = LoopAction.captureAuto)
    ∧ dispatch "   " = LoopAction.captureAuto
    ∧ dispatch " q " = LoopAction.quit
    ∧ dispatch " I " = LoopAction.info
    ∧ (∀ n, dispatch raw = LoopAction.captureNamed n → n = pyStrip raw) := by
  refine ⟨?_, by decide, by decide, by decide, ?_⟩
  · intro h
    simp only [dispatch, h]
    decide
  · intro n
    simp only [dispatch]
    split
    · intro h
      cases h
    · split
      · intro h
        cases h
      · split
        · intro h
          cases h
        · intro h
          injection h with h'
          exact h'.symm

/-- Witness for C10: a tab-and-space line dispatches as an auto capture. -/
theorem c10_dispatch_strip_witness :
    dispatch "\t " = LoopAction.captureAuto :=
  (c10_dispatch_strip "\t ").1 (by decide)

end AndroidScreenGrabber
